import Mathlib

/-!
Shallow embedding of the StoreLocator Preact component
(`src/components/StoreLocator.js` of LucaRosaldi/store-locator) and proofs
about its proximity-search pipeline, filter logic and state handling.

Numbers are modelled with `ℚ` (exact arithmetic in place of JS floats).
The trigonometric functions and π used by `getComputedDistance`
(`Math.sin`, `Math.cos`, `Math.acos`, `Math.PI`) and the external
`google.maps.geometry.spherical.computeDistanceBetween` are parameters of
the embedding, so every definition stays executable; theorems that need
analytic facts about them (the Pythagorean identity) take those facts as
hypotheses and are instantiated by concrete witnesses.
-/

/-- Constant `KM_TO_MILES` from the source (line 24): `1.609`. -/
def KM_TO_MILES : ℚ := 1609 / 1000

/-- A latitude/longitude pair, `{ lat: x, lng: y }` in the source. -/
structure Location where
  lat : ℚ
  lng : ℚ
deriving DecidableEq, Repr

/-- A store object.  `id` models both `store.id` and the `storeId` the
constructor copies from it (line 91).  The mutable computed fields the code
attaches to store objects (`computedDistance` from the approximate phase,
`distance`/`distanceText`/`durationText` from `Object.assign` in the precise
phase, `hidden` from filter clicks) are `Option`-valued: `none` means the
JS object does not carry the property yet. -/
structure Store where
  id : Nat
  location : Location
  tags : List String := []
  hidden : Bool := false
  computedDistance : Option ℚ := none
  distance : Option ℚ := none
  distanceText : Option String := none
  durationText : Option String := none
deriving DecidableEq, Repr

/-- Placeholder store used only as the default of `List.getD`. -/
def dummyStore : Store := { id := 0, location := { lat := 0, lng := 0 } }

/-- The mathematical primitives the component reaches through `Math.*`
(a parameter of the embedding: JS floating-point trig is replaced by
arbitrary rational-valued functions). -/
structure JsMath where
  pi : ℚ
  sin : ℚ → ℚ
  cos : ℚ → ℚ
  acos : ℚ → ℚ

/-- The component options that the modelled code paths read
(`defaultProps`, lines 38-79; `state.searchRadius` and
`state.showStoreDistance` are copied from props in the constructor and
never written afterwards, so they are read from here as well). -/
structure Props where
  searchRadius : ℚ := 30
  showStoreDistance : Bool := true
  orderByStoreDistance : Bool := true
  mapUnitSystem : String := "METRIC"
  mapTravelMode : String := "DRIVING"
  mapCenter : Location := { lat := 41, lng := 12 }
  mapZoom : ℚ := 6
  i18nByCar : String := "by car"
  i18nByWalk : String := "by walk"
  i18nDistanceText : String := "\x7b\x7bdistance\x7d\x7d"

/-- Model of `String.prototype.toUpperCase` on ASCII option strings, written over
the character list so that it is kernel-computable. -/
def jsToUpperCase (s : String) : String := String.mk (s.data.map Char.toUpper)

/-- Source `getUnitSystem` (lines 394-399). -/
def getUnitSystem (props : Props) : String :=
  if jsToUpperCase props.mapUnitSystem = "IMPERIAL" then "IMPERIAL" else "METRIC"

/-- Source `getSearchRadius` (lines 381-387): the configured radius, divided by
`KM_TO_MILES` under the imperial unit system. -/
def getSearchRadius (props : Props) : ℚ :=
  if getUnitSystem props = "IMPERIAL" then props.searchRadius / KM_TO_MILES
  else props.searchRadius

/-- The raw spherical-law-of-cosines value computed by
`getComputedDistance` (line 235):
`sin(radlat1)*sin(radlat2) + cos(radlat1)*cos(radlat2)*cos(radtheta)`. -/
def acosInput (m : JsMath) (p1 p2 : Location) : ℚ :=
  let radlat1 := m.pi * p1.lat / 180
  let radlat2 := m.pi * p2.lat / 180
  let radtheta := m.pi * (p1.lng - p2.lng) / 180
  m.sin radlat1 * m.sin radlat2 + m.cos radlat1 * m.cos radlat2 * m.cos radtheta

/-- The value actually passed to `Math.acos` (lines 236-239): the raw
value, clamped at `1` from above (`if (dist > 1) dist = 1`). -/
def acosArgument (m : JsMath) (p1 p2 : Location) : ℚ :=
  let d := acosInput m p1 p2
  if d > 1 then 1 else d

/-- Source `getComputedDistance` (lines 225-248): short-circuits to `0` when both
coordinates coincide; otherwise applies acos to the clamped value, converts
to degrees, then to (statute) miles via `* 60 * 1.1515`, and multiplies by
`KM_TO_MILES` unless the unit system is imperial. -/
def getComputedDistance (m : JsMath) (props : Props) (p1 p2 : Location) : ℚ :=
  if p1.lat = p2.lat ∧ p1.lng = p2.lng then 0
  else
    let d0 := m.acos (acosArgument m p1 p2)
    let d1 := d0 * 180 / m.pi
    let d2 := d1 * 60 * (11515 / 10000)
    if getUnitSystem props ≠ "IMPERIAL" then d2 * KM_TO_MILES else d2

/-- Model of JS `Number.prototype.toFixed(2)` followed by numeric coercion:
rounding to two decimal places (decimal string formatting itself is not
modelled, only the numeric value). -/
def roundTo2 (q : ℚ) : ℚ := (⌊q * 100 + 1 / 2⌋ : ℤ) / 100

/-- Source `getDistanceValue` (lines 308-314): meters to Km (or Mi), rounded as by
`toFixed(2)`. -/
def getDistanceValue (props : Props) (meters : ℚ) : ℚ :=
  let d := meters / 1000
  roundTo2 (if getUnitSystem props = "IMPERIAL" then d / KM_TO_MILES else d)

/-- Source `getDistanceText` (lines 322-329). -/
def getDistanceText (props : Props) (meters : ℚ) : String :=
  let d := getDistanceValue props meters
  let t := props.i18nDistanceText.replace "\x7b\x7bdistance\x7d\x7d" (toString d)
  if getUnitSystem props = "IMPERIAL" then t ++ " Mi" else t ++ " Km"

/-- The record resolved by `getDistanceMatrix` and applied to a store with
`Object.assign` (line 686).  `durationText := none` models the key being
absent from the resolved object (the direct-distance fallback has no
duration), in which case `Object.assign` leaves the store's own field. -/
structure DistanceAssign where
  distance : ℚ
  distanceText : String
  durationText : Option String := none
deriving DecidableEq, Repr

/-- The object `response.rows[0].elements[0]` of a distance-matrix response. -/
structure DMRoute where
  status : String
  distanceValue : ℚ
  durationText : String
deriving DecidableEq, Repr

/-- A distance-matrix callback outcome: the top-level `status` plus the
single route element (the code queries one origin and one destination). -/
structure DMResponse where
  status : String
  route : DMRoute
deriving DecidableEq, Repr

/-- Source `getDirectDistance` (lines 338-353), with the external
`google.maps.geometry.spherical.computeDistanceBetween` abstracted as the
parameter `sph` (meters).  The imperial branch re-divides the already
rounded kilometer value, exactly as the source does. -/
def getDirectDistance (sph : Location → Location → ℚ) (props : Props)
    (origin destination : Location) : DistanceAssign :=
  let d0 := roundTo2 (sph origin destination / 1000)
  if getUnitSystem props = "IMPERIAL" then
    let d1 := roundTo2 (d0 / KM_TO_MILES)
    { distance := d1, distanceText := toString d1 ++ " Mi" }
  else
    { distance := d0, distanceText := toString d0 ++ " Km" }

/-- Source `getDistanceMatrix` (lines 257-300): resolves the direct-distance
fallback when the response status or the route status is not `"OK"`,
otherwise a record derived from the provider's numeric distance and
duration text.  The promise never rejects: this function is total. -/
def getDistanceMatrix (sph : Location → Location → ℚ) (props : Props)
    (origin destination : Location) (resp : DMResponse) : DistanceAssign :=
  let direct := getDirectDistance sph props origin destination
  if resp.status ≠ "OK" then direct
  else if resp.route.status ≠ "OK" then direct
  else
    { distance := getDistanceValue props resp.route.distanceValue,
      distanceText := getDistanceText props resp.route.distanceValue,
      durationText := some (resp.route.durationText ++ " " ++
        (if props.mapTravelMode = "DRIVING" then props.i18nByCar else props.i18nByWalk)) }

/-- Model of `Object.assign( store, distance )` (line 686): writes `distance` and
`distanceText` (always present on the source record) and `durationText`
when present; all other store fields are untouched. -/
def objAssign (s : Store) (r : DistanceAssign) : Store :=
  { s with distance := some r.distance,
           distanceText := some r.distanceText,
           durationText := match r.durationText with
             | some t => some t
             | none => s.durationText }

/-- The precise phase of `updateStores` (lines 684-689): `promiseMap` maps
`getDistanceMatrix` + `Object.assign` over the surviving stores.  `p-map`
resolves with the results in input order and with one result per input;
`responses i` is the distance-matrix outcome for the `i`-th element. -/
def updateStoresPrecise (sph : Location → Location → ℚ) (props : Props)
    (coords : Location) (responses : Nat → DMResponse)
    (results : List Store) : List Store :=
  results.enum.map fun p =>
    objAssign p.2 (getDistanceMatrix sph props coords p.2.location (responses p.1))

/-- A `google.maps.LatLngBounds` value (south-west / north-east corners). -/
structure Bounds where
  sw : Location
  ne : Location
deriving DecidableEq, Repr

/-- The map viewport, abstracting `setCenter`/`setZoom`,
`fitBounds(bounds); panTo(center)` over a point set, and
`fitBounds(place.geometry.bounds)`. -/
inductive MapView where
  | centerZoom (center : Location) (zoom : ℚ)
  | fitted (points : List Location)
  | fittedBounds (b : Bounds)
deriving DecidableEq, Repr

/-- The component state that the modelled handlers read and write.
`propsStores` is the caller-supplied `this.props.stores` array: JS code
mutates the store objects it holds, so operations that mutate store
objects in place are modelled by rewriting the matching `propsStores`
entries (the published `stateStores` list only ever aliases objects of
`propsStores` in the source). -/
structure SLState where
  propsStores : List Store
  stateStores : List Store
  activeStoreId : Option Nat := none
  activeFilters : List String := []
  searchLocation : Option Location := none
  inputValue : String := ""
  infoWindowOpen : Bool := false
  positionMarker : Option Location := none
  mapView : MapView := MapView.centerZoom { lat := 41, lng := 12 } 6
deriving DecidableEq, Repr

/-- The constructor (lines 86-108) followed by `initMap`: state starts with
the full caller store list published, all configured filter tags active,
nothing selected, and the configured center/zoom. -/
def initState (props : Props) (stores : List Store) (filterTags : List String) : SLState :=
  { propsStores := stores,
    stateStores := stores,
    activeFilters := filterTags,
    mapView := MapView.centerZoom props.mapCenter props.mapZoom }

/-- The computed-distance annotation `updateStores` performs on every
element of `this.props.stores` (lines 658-661): the assignment
`store.computedDistance = this.getComputedDistance(coords, store.location)`
mutates the caller-owned object. -/
def annotateStore (m : JsMath) (props : Props) (coords : Location) (s : Store) : Store :=
  { s with computedDistance := some (getComputedDistance m props coords s.location) }

/-- The `computedDistance` a store object carries (`0` when the property is
absent, which never happens after the approximate phase has run). -/
def computedDistanceVal (s : Store) : ℚ := s.computedDistance.getD 0

/-- The `distance` a store object carries after the precise phase. -/
def distanceVal (s : Store) : ℚ := s.distance.getD 0

/-- The synchronous part of `updateStores` (lines 652-681): annotate every
element of `this.props.stores` with `computedDistance` (mutating the
caller's objects — `map` returns a new array of the same objects), sort
that array by `computedDistance` when `orderByStoreDistance` is set
(`Array.prototype.sort` with a numeric comparator is a stable sort, whose
result is modelled by a stable insertion sort), filter
by strict `<` against `getSearchRadius()`, fit the map to the reference
point plus the surviving stores, and publish the filtered list. -/
def updateStores (m : JsMath) (props : Props) (coords : Location) (st : SLState) : SLState :=
  let annotated := st.propsStores.map (annotateStore m props coords)
  let sorted :=
    if props.orderByStoreDistance then
      annotated.insertionSort fun a b => computedDistanceVal a ≤ computedDistanceVal b
    else annotated
  let results := sorted.filter fun s => computedDistanceVal s < getSearchRadius props
  { st with propsStores := annotated,
            stateStores := results,
            mapView := MapView.fitted (coords :: results.map (·.location)) }

/-- The `.then` callback of the precise phase (lines 689-694): the code
calls `setState({ stores })` with the refined array and then, when
`orderByStoreDistance` is set, sorts that same array in place (stable sort,
modelled by insertion sort), so the published reference holds the sorted
list.  The refined objects are the
caller's store objects further mutated by `Object.assign`, modelled by
rewriting the matching `propsStores` entries. -/
def updateStoresCommit (props : Props) (refined : List Store) (st : SLState) : SLState :=
  let sorted :=
    if props.orderByStoreDistance then
      refined.insertionSort fun a b => distanceVal a ≤ distanceVal b
    else refined
  { st with stateStores := sorted,
            propsStores := st.propsStores.map fun p =>
              ((refined.find? fun r => r.id = p.id).getD p) }

/-- A complete precise-phase resolution (lines 683-695): guarded by
`this.state.showStoreDistance && results.length > 0` at launch time,
`captured` is the `results` array the callback closed over, and the commit
runs whenever the promise resolves — the code performs no session/staleness
check before `setState`. -/
def updateStoresLate (sph : Location → Location → ℚ) (props : Props)
    (coords : Location) (responses : Nat → DMResponse)
    (captured : List Store) (st : SLState) : SLState :=
  if props.showStoreDistance ∧ 0 < captured.length then
    updateStoresCommit props (updateStoresPrecise sph props coords responses captured) st
  else st

/-- A geocoded place result as consumed by `updateLocation`
(`place.geometry.location`, `place.geometry.bounds`,
`place.formatted_address`, `place.types`). -/
structure PlaceResult where
  location : Location
  bounds : Option Bounds := none
  formattedAddress : String := ""
  types : List String := []
deriving DecidableEq, Repr

/-- Source `updateLocation` (lines 606-620): stores the search location, runs
`updateStores` unconditionally, then — only if the place types do not
include `"political"` — adds the current-position marker; otherwise, if the
place has bounds, fits the map to them. -/
def updateLocation (m : JsMath) (props : Props) (place : PlaceResult) (st : SLState) : SLState :=
  let st1 := { st with inputValue := place.formattedAddress,
                       searchLocation := some place.location }
  let st2 := updateStores m props place.location st1
  if place.types.contains "political" = false then
    { st2 with positionMarker := some place.location }
  else
    match place.bounds with
    | some b => { st2 with mapView := MapView.fittedBounds b }
    | none => st2

/-- The active-filter update in `handleFilterClick` (lines 461-473): push
the tag when the checkbox ends up checked and the tag is absent, splice it
out when unchecked and present. -/
def activeFiltersAfter (af : List String) (tag : String) (checked : Bool) : List String :=
  if checked ∧ af.contains tag = false then af ++ [tag]
  else if checked = false ∧ af.contains tag then af.erase tag
  else af

/-- The per-store visibility recomputation in `handleFilterClick`
(lines 476-485): `hidden` starts `true` and one matching active tag makes
the store visible, so `hidden` is true iff no active tag occurs among the
store's tags. -/
def applyFilterHidden (af : List String) (s : Store) : Store :=
  { s with hidden := !(af.any fun t => s.tags.contains t) }

/-- Source `handleFilterClick` (lines 457-499): update the active filters, map the
visibility recomputation over the published list (mutating the shared
store objects, hence also the matching `propsStores` entries), publish the
result.  Marker `setMap` calls have no counterpart in this state model. -/
def handleFilterClick (tag : String) (checked : Bool) (st : SLState) : SLState :=
  let af := activeFiltersAfter st.activeFilters tag checked
  let results := st.stateStores.map (applyFilterHidden af)
  { st with activeFilters := af,
            stateStores := results,
            infoWindowOpen := false,
            propsStores := st.propsStores.map fun p =>
              ((results.find? fun r => r.id = p.id).getD p) }

/-- Source `handleStoreClick` (lines 440-450): pans the map, opens the clicked
store's info window and records the selection. -/
def handleStoreClick (storeId : Nat) (loc : Location) (st : SLState) : SLState :=
  { st with activeStoreId := some storeId,
            infoWindowOpen := true,
            mapView := MapView.centerZoom loc 6 }

/-- The `search`-event listener installed by `initSearchInput`
(lines 566-575): when the input value is empty, republish
`this.props.stores`, close info windows, clear the position marker and
reset center/zoom.  Neither `activeStoreId` nor the `hidden` flags carried
by the store objects are touched. -/
def clearSearchInput (props : Props) (st : SLState) : SLState :=
  if st.inputValue = "" then
    { st with stateStores := st.propsStores,
              infoWindowOpen := false,
              positionMarker := none,
              mapView := MapView.centerZoom props.mapCenter props.mapZoom }
  else st

/-!
Concrete scenario used by the witnesses and counterexamples below.
`mC1` instantiates the mathematical primitives so that, with `pi = 180`
(making `radlat = lat`) and `acos = id`, the resulting computed distances
form a controlled 2-by-2 matrix: search centers `locC1`/`locC2` are within
the default 30 radius only of `storeA` resp. `storeB`. -/

def mC1 : JsMath where
  pi := 180
  sin := fun x => if x = 10 then 1 else if x = 40 then 1 / 2 else 0
  cos := fun x => if x = 0 then 1 else if x = 20 then 1 else if x = 30 then 1 / 2 else 0
  acos := fun x => x

def storeA : Store := { id := 1, location := { lat := 30, lng := 0 }, tags := ["x"] }

def storeB : Store := { id := 2, location := { lat := 40, lng := 0 }, tags := ["y"] }

def props0 : Props := {}

def locC1 : Location := { lat := 10, lng := 0 }

def locC2 : Location := { lat := 20, lng := 0 }

def st0 : SLState := initState props0 [storeA, storeB] ["x", "y"]

def sph0 : Location → Location → ℚ := fun _ _ => 5000

def respOK : Nat → DMResponse := fun _ =>
  { status := "OK", route := { status := "OK", distanceValue := 5000, durationText := "5 mins" } }

def respFail : Nat → DMResponse := fun _ =>
  { status := "OVER_QUERY_LIMIT", route := { status := "OK", distanceValue := 5000, durationText := "5 mins" } }

/-- A trig instantiation for the `getComputedDistance` witnesses: constant
functions satisfying the Pythagorean identity. -/
def mUnit : JsMath where
  pi := 180
  sin := fun _ => 0
  cos := fun _ => 1
  acos := fun x => x

/-- Claim C2: every store in the list published by the approximate phase of
`updateStores` carries an approximate distance strictly below the search
radius; a store exactly at the radius boundary is excluded. -/
theorem updateStores_strict_radius_filter (m : JsMath) (props : Props)
    (coords : Location) (st : SLState) (s : Store)
    (hs : s ∈ (updateStores m props coords st).stateStores) :
    computedDistanceVal s < getSearchRadius props := by
  simp only [updateStores, List.mem_filter] at hs
  exact of_decide_eq_true hs.2

/-- Witness for C2: in the concrete scenario the annotated `storeA` is
published by a search at `locC1`, and its distance is below the radius. -/
theorem updateStores_strict_radius_filter_witness :
    annotateStore mC1 props0 locC1 storeA ∈ (updateStores mC1 props0 locC1 st0).stateStores ∧
    computedDistanceVal (annotateStore mC1 props0 locC1 storeA) < getSearchRadius props0 :=
  ⟨of_decide_eq_true (by with_unfolding_all rfl),
   updateStores_strict_radius_filter mC1 props0 locC1 st0 _
     (of_decide_eq_true (by with_unfolding_all rfl))⟩

/-- Claim C9: `getComputedDistance` returns exactly `0` for coinciding
locations, and, whenever the trigonometric primitives satisfy the
Pythagorean identity, the value passed to `acos` lies in `[-1, 1]`, so the
computation never incurs an `acos` domain error. -/
theorem getComputedDistance_domain_safe (m : JsMath)
    (hm : ∀ x, m.sin x ^ 2 + m.cos x ^ 2 = 1) :
    (∀ props p, getComputedDistance m props p p = 0) ∧
    (∀ p1 p2, -1 ≤ acosArgument m p1 p2 ∧ acosArgument m p1 p2 ≤ 1) := by
  constructor
  · intro props p
    simp [getComputedDistance]
  · intro p1 p2
    have hlow : -1 ≤ acosInput m p1 p2 := by
      unfold acosInput
      have h1 := hm (m.pi * p1.lat / 180)
      have h2 := hm (m.pi * p2.lat / 180)
      have h3 := hm (m.pi * (p1.lng - p2.lng) / 180)
      nlinarith [sq_nonneg (m.sin (m.pi * p1.lat / 180) + m.sin (m.pi * p2.lat / 180)),
        sq_nonneg (m.cos (m.pi * p1.lat / 180) * m.cos (m.pi * (p1.lng - p2.lng) / 180) +
          m.cos (m.pi * p2.lat / 180)),
        sq_nonneg (m.cos (m.pi * p1.lat / 180) * m.sin (m.pi * (p1.lng - p2.lng) / 180))]
    unfold acosArgument
    by_cases hgt : acosInput m p1 p2 > 1
    · simp only [hgt, if_pos]
      norm_num
    · simp only [hgt, if_neg, if_false]
      exact ⟨hlow, le_of_not_lt hgt⟩

/-- Witness for C9 at a concrete trig instantiation and concrete points. -/
theorem getComputedDistance_domain_safe_witness :
    getComputedDistance mUnit props0 locC1 locC1 = 0 ∧
    -1 ≤ acosArgument mUnit locC1 locC2 ∧ acosArgument mUnit locC1 locC2 ≤ 1 :=
  have hm : ∀ x, mUnit.sin x ^ 2 + mUnit.cos x ^ 2 = 1 := fun x => by simp [mUnit]
  ⟨(getComputedDistance_domain_safe mUnit hm).1 props0 locC1,
   (getComputedDistance_domain_safe mUnit hm).2 locC1 locC2⟩

/-!
Overlapping-session trace for claim C1.  Session 1 searches at `locC1`
(approximate publish `[storeA]`), session 2 then searches at `locC2`
(approximate publish `[storeB]`) and its precise phase commits; finally
session 1's precise phase — still pending, with the `results` array it
closed over — resolves and the `.then` callback runs `setState`
unconditionally. -/

def stSession1 : SLState := updateStores mC1 props0 locC1 st0

def stSession2 : SLState := updateStores mC1 props0 locC2 stSession1

def stAfterCommit2 : SLState :=
  updateStoresLate sph0 props0 locC2 respOK stSession2.stateStores stSession2

def stAfterLateCommit1 : SLState :=
  updateStoresLate sph0 props0 locC1 respOK stSession1.stateStores stAfterCommit2

/-- Claim C1 (code bug, evaluated at the failing input): the precise-phase
callback of `updateStores` performs no session check, so when session 1's
precise phase resolves after session 2 has committed, the stale `setState`
replaces the published list `[storeB]` with session 1's `[storeA]` —
the late resolution is not a no-op on published state. -/
theorem stale_precise_commit_clobbers_published :
    stSession1.stateStores.map Store.id = [1] ∧
    stSession2.stateStores.map Store.id = [2] ∧
    stAfterCommit2.stateStores.map Store.id = [2] ∧
    stAfterLateCommit1.stateStores.map Store.id = [1] :=
  of_decide_eq_true (by with_unfolding_all rfl)

/-- Claim C5 (code bug, evaluated at the failing input): the approximate
phase of `updateStores` assigns `computedDistance` directly onto the
elements of the caller-supplied `this.props.stores` array, so after a
single search the caller-owned originals are changed. -/
theorem updateStores_mutates_caller_store_objects :
    st0.propsStores.map Store.computedDistance = [none, none] ∧
    (updateStores mC1 props0 locC1 st0).propsStores.map
      (fun s => s.computedDistance.isSome) = [true, true] :=
  of_decide_eq_true (by with_unfolding_all rfl)

/-- Claim C3: when the distance-matrix response for element `i` has a
non-success status (at either level) and every other element succeeds, the
precise phase still resolves with a list of the same length, element `i`
receives the direct-distance fallback via `Object.assign`, and its
approximate-phase `computedDistance` is unchanged; no element is dropped. -/
theorem updateStoresPrecise_fallback (sph : Location → Location → ℚ)
    (props : Props) (coords : Location) (responses : Nat → DMResponse)
    (stores : List Store) (i : Nat) (hi : i < stores.length)
    (hfail : (responses i).status ≠ "OK" ∨ (responses i).route.status ≠ "OK")
    (hok : ∀ j, j < stores.length → j ≠ i →
      (responses j).status = "OK" ∧ (responses j).route.status = "OK") :
    (updateStoresPrecise sph props coords responses stores).length = stores.length ∧
    (updateStoresPrecise sph props coords responses stores).getD i dummyStore =
      objAssign (stores.getD i dummyStore)
        (getDirectDistance sph props coords (stores.getD i dummyStore).location) ∧
    ((updateStoresPrecise sph props coords responses stores).getD i dummyStore).computedDistance =
      (stores.getD i dummyStore).computedDistance := by
  have hs : stores[i]? = some stores[i] := List.getElem?_eq_getElem hi
  have hgd : (updateStoresPrecise sph props coords responses stores).getD i dummyStore =
      objAssign stores[i]
        (getDistanceMatrix sph props coords stores[i].location (responses i)) := by
    simp [updateStoresPrecise, List.getD_eq_getElem?_getD, List.getElem?_map,
      List.enum_eq_enumFrom, List.getElem?_enumFrom, hs]
  have hdm : getDistanceMatrix sph props coords stores[i].location (responses i) =
      getDirectDistance sph props coords stores[i].location := by
    rcases hfail with hf | hf
    · simp [getDistanceMatrix, hf]
    · by_cases h1 : (responses i).status = "OK"
      · simp [getDistanceMatrix, h1, hf]
      · simp [getDistanceMatrix, h1]
  have hgdd : stores.getD i dummyStore = stores[i] := by
    simp [List.getD_eq_getElem?_getD, hs]
  refine ⟨by simp [updateStoresPrecise], ?_, ?_⟩
  · rw [hgd, hdm, hgdd]
  · rw [hgd, hgdd]
    simp [objAssign]

/-- Witness for C3: one store, a failing provider, concrete evaluation. -/
theorem updateStoresPrecise_fallback_witness :
    (updateStoresPrecise sph0 props0 locC1 respFail [storeA]).length = 1 ∧
    ((updateStoresPrecise sph0 props0 locC1 respFail [storeA]).getD 0 dummyStore).computedDistance =
      (([storeA] : List Store).getD 0 dummyStore).computedDistance :=
  have h := updateStoresPrecise_fallback sph0 props0 locC1 respFail [storeA] 0
    (by decide) (Or.inl (by decide))
    (fun j hj hne => absurd (Nat.lt_one_iff.mp hj) hne)
  ⟨h.1, h.2.2⟩

/-- A political (administrative-area) geocoded place used for claim C4. -/
def placePol : PlaceResult :=
  { location := locC1,
    bounds := some { sw := { lat := 0, lng := 0 }, ne := { lat := 50, lng := 50 } },
    formattedAddress := "Region",
    types := ["political"] }

/-- Counterexample to claim C4 as stated: for a political place,
`updateLocation` still calls `updateStores` before inspecting
`place.types`, so ranking and radius filtering run and the published list
changes from `[storeA, storeB]` to `[storeA]`. -/
theorem updateLocation_political_counterexample :
    placePol.types.contains "political" = true ∧
    st0.stateStores.map Store.id = [1, 2] ∧
    (updateLocation mC1 props0 placePol st0).stateStores.map Store.id = [1] :=
  of_decide_eq_true (by with_unfolding_all rfl)

/-- Claim C4 as amended: for a political resolved location the controller
still performs the full approximate ranking and publishes the filtered
list exactly as `updateStores` computes it (and annotates the caller's
stores); the political classification only suppresses the current-position
marker and, when the place carries bounds, fits the viewport to them. -/
theorem updateLocation_political_still_ranks (m : JsMath) (props : Props)
    (place : PlaceResult) (st : SLState)
    (h : place.types.contains "political" = true) :
    (updateLocation m props place st).stateStores =
      (updateStores m props place.location st).stateStores ∧
    (updateLocation m props place st).propsStores =
      (updateStores m props place.location st).propsStores ∧
    (updateLocation m props place st).positionMarker = st.positionMarker ∧
    ∀ b, place.bounds = some b →
      (updateLocation m props place st).mapView = MapView.fittedBounds b := by
  have hne : ¬ (place.types.contains "political" = false) := by
    rw [h]
    decide
  simp only [updateLocation]
  rw [if_neg hne]
  cases place.bounds with
  | none =>
    refine ⟨rfl, rfl, rfl, ?_⟩
    intro b hbb
    exact Option.noConfusion hbb
  | some b =>
    refine ⟨rfl, rfl, rfl, ?_⟩
    intro b' hbb
    cases hbb
    rfl

/-- Witness for the amended C4 at the concrete political place. -/
theorem updateLocation_political_still_ranks_witness :
    (updateLocation mC1 props0 placePol st0).stateStores =
      (updateStores mC1 props0 placePol.location st0).stateStores ∧
    (updateLocation mC1 props0 placePol st0).propsStores =
      (updateStores mC1 props0 placePol.location st0).propsStores ∧
    (updateLocation mC1 props0 placePol st0).positionMarker = st0.positionMarker ∧
    ∀ b, placePol.bounds = some b →
      (updateLocation mC1 props0 placePol st0).mapView = MapView.fittedBounds b :=
  updateLocation_political_still_ranks mC1 props0 placePol st0 (by decide)

/-!
Concrete scenario for claim C6: two in-radius stores whose precise
distances invert their approximate order (spec test: provider returns
45 km for the approximately-nearer store A and 12 km for store B). -/

def storeA6 : Store :=
  { id := 1, location := { lat := 30, lng := 0 }, computedDistance := some 10 }

def storeB6 : Store :=
  { id := 2, location := { lat := 40, lng := 0 }, computedDistance := some 40 }

def resp6 : Nat → DMResponse := fun i =>
  if i = 0 then
    { status := "OK", route := { status := "OK", distanceValue := 45000, durationText := "45 mins" } }
  else
    { status := "OK", route := { status := "OK", distanceValue := 12000, durationText := "12 mins" } }

def stC6 : SLState := { propsStores := [storeA6, storeB6], stateStores := [storeA6, storeB6] }

/-- Claim C6: with `orderByStoreDistance` enabled the list published by the
precise-phase commit is sorted ascending by the `distance` field the phase
attached (provider value, or the direct-distance fallback); in particular,
in the inverted-order scenario the committed list is `[storeB, storeA]`. -/
theorem updateStoresCommit_sorted_by_distance :
    (∀ (props : Props) (refined : List Store) (st : SLState),
      props.orderByStoreDistance = true →
      List.Pairwise (fun a b => distanceVal a ≤ distanceVal b)
        (updateStoresCommit props refined st).stateStores) ∧
    (updateStoresCommit props0
      (updateStoresPrecise sph0 props0 locC1 resp6 [storeA6, storeB6]) stC6).stateStores.map
        Store.id = [2, 1] := by
  constructor
  · intro props refined st h
    haveI : IsTotal Store fun a b => distanceVal a ≤ distanceVal b :=
      ⟨fun a b => le_total _ _⟩
    haveI : IsTrans Store fun a b => distanceVal a ≤ distanceVal b :=
      ⟨fun _ _ _ hab hbc => le_trans hab hbc⟩
    simp only [updateStoresCommit, h, if_true]
    exact List.sorted_insertionSort _ _
  · exact of_decide_eq_true (by with_unfolding_all rfl)

/-- Witness for C6's sortedness statement at a concrete input. -/
theorem updateStoresCommit_sorted_by_distance_witness :
    props0.orderByStoreDistance = true ∧
    List.Pairwise (fun a b => distanceVal a ≤ distanceVal b)
      (updateStoresCommit props0 [storeA6, storeB6] stC6).stateStores :=
  ⟨by decide,
   updateStoresCommit_sorted_by_distance.1 props0 [storeA6, storeB6] stC6 (by decide)⟩

/-- Erase the `hidden` mark of a store (used to state that filtering
changes nothing except `hidden`). -/
def setHiddenFalse (s : Store) : Store := { s with hidden := false }

/-- Lemma: `setHiddenFalse` absorbs a preceding visibility recomputation. -/
theorem setHiddenFalse_applyFilterHidden (af : List String) (s : Store) :
    setHiddenFalse (applyFilterHidden af s) = setHiddenFalse s := by
  cases s
  rfl

/-- Claim C7: a filter click recomputes `hidden` on the published list as
true exactly when the (updated) active tag set has empty intersection with
the store's tags, and apart from `hidden` the published list is unchanged —
same elements, same order, nothing dropped. -/
theorem handleFilterClick_hidden_iff (st : SLState) (tag : String) (checked : Bool) :
    (handleFilterClick tag checked st).stateStores.map setHiddenFalse =
      st.stateStores.map setHiddenFalse ∧
    ∀ i, i < st.stateStores.length →
      (((handleFilterClick tag checked st).stateStores.getD i dummyStore).hidden = true ↔
        ∀ t ∈ activeFiltersAfter st.activeFilters tag checked,
          t ∉ (st.stateStores.getD i dummyStore).tags) := by
  constructor
  · rw [show (handleFilterClick tag checked st).stateStores =
        st.stateStores.map (applyFilterHidden (activeFiltersAfter st.activeFilters tag checked))
        from rfl]
    rw [List.map_map]
    exact List.map_congr_left fun s _ => setHiddenFalse_applyFilterHidden _ s
  · intro i hi
    have hs : st.stateStores[i]? = some st.stateStores[i] := List.getElem?_eq_getElem hi
    have h1 : (handleFilterClick tag checked st).stateStores.getD i dummyStore =
        applyFilterHidden (activeFiltersAfter st.activeFilters tag checked)
          st.stateStores[i] := by
      rw [show (handleFilterClick tag checked st).stateStores =
          st.stateStores.map (applyFilterHidden (activeFiltersAfter st.activeFilters tag checked))
          from rfl]
      simp [List.getD_eq_getElem?_getD, List.getElem?_map, hs]
    have h2 : st.stateStores.getD i dummyStore = st.stateStores[i] := by
      simp [List.getD_eq_getElem?_getD, hs]
    rw [h1, h2]
    simp [applyFilterHidden]

/-- Witness for C7 at the concrete state: after unchecking filter `"x"`,
the first published store (tags `["x"]`) is hidden because the remaining
active tag set `["y"]` does not intersect its tags. -/
theorem handleFilterClick_hidden_iff_witness :
    0 < st0.stateStores.length ∧
    (((handleFilterClick "x" false st0).stateStores.getD 0 dummyStore).hidden = true ↔
      ∀ t ∈ activeFiltersAfter st0.activeFilters "x" false,
        t ∉ (st0.stateStores.getD 0 dummyStore).tags) :=
  ⟨by decide, (handleFilterClick_hidden_iff st0 "x" false).2 0 (by decide)⟩

/-- State for claim C8: starting from the initial state, filter `"x"` is
unchecked (hiding `storeA` — mutating the shared store objects), then
`storeA` is selected, and then the (empty) search input fires its `search`
event. -/
def stSel : SLState := handleStoreClick 1 storeA.location (handleFilterClick "x" false st0)

/-- Counterexample to claim C8 as stated: after clearing the search input,
the republished full store set still carries `hidden = true` on `storeA`
(left over from the filter click) and the selection `activeStoreId = 1` is
not cleared — so not every store is visible and a store is still
selected. -/
theorem clearSearchInput_counterexample :
    (clearSearchInput props0 stSel).stateStores.map (fun s => (s.id, s.hidden)) =
      [(1, true), (2, false)] ∧
    (clearSearchInput props0 stSel).activeStoreId = some 1 :=
  of_decide_eq_true (by with_unfolding_all rfl)

/-- Claim C8 as amended: clearing the search input republishes the full
caller store array as-is (with whatever `hidden` marks earlier filter
clicks left on the objects), closes info windows, clears the position
marker and resets the viewport — but it does not reset `hidden` and does
not clear the active selection. -/
theorem clearSearchInput_restores_props_list (props : Props) (st : SLState)
    (h : st.inputValue = "") :
    (clearSearchInput props st).stateStores = st.propsStores ∧
    (clearSearchInput props st).propsStores = st.propsStores ∧
    (clearSearchInput props st).activeStoreId = st.activeStoreId ∧
    (clearSearchInput props st).positionMarker = none ∧
    (clearSearchInput props st).infoWindowOpen = false ∧
    (clearSearchInput props st).mapView =
      MapView.centerZoom props.mapCenter props.mapZoom := by
  simp [clearSearchInput, h]

/-- Witness for the amended C8 at the concrete post-filter, post-selection
state. -/
theorem clearSearchInput_restores_props_list_witness :
    (clearSearchInput props0 stSel).stateStores = stSel.propsStores ∧
    (clearSearchInput props0 stSel).propsStores = stSel.propsStores ∧
    (clearSearchInput props0 stSel).activeStoreId = stSel.activeStoreId ∧
    (clearSearchInput props0 stSel).positionMarker = none ∧
    (clearSearchInput props0 stSel).infoWindowOpen = false ∧
    (clearSearchInput props0 stSel).mapView =
      MapView.centerZoom props0.mapCenter props0.mapZoom :=
  clearSearchInput_restores_props_list props0 stSel (by decide)

/-- Positivity of `KM_TO_MILES`. -/
theorem KM_TO_MILES_pos : (0 : ℚ) < KM_TO_MILES := by norm_num [KM_TO_MILES]

/-- Value of `getUnitSystem` after overriding the unit option with `"METRIC"`. -/
theorem getUnitSystem_set_metric (base : Props) :
    getUnitSystem { base with mapUnitSystem := "METRIC" } = "METRIC" := by
  unfold getUnitSystem
  rw [show ({ base with mapUnitSystem := "METRIC" } : Props).mapUnitSystem = "METRIC" from rfl]
  rw [if_neg (by decide)]

/-- Value of `getUnitSystem` after overriding the unit option with `"IMPERIAL"`. -/
theorem getUnitSystem_set_imperial (base : Props) :
    getUnitSystem { base with mapUnitSystem := "IMPERIAL" } = "IMPERIAL" := by
  unfold getUnitSystem
  rw [show ({ base with mapUnitSystem := "IMPERIAL" } : Props).mapUnitSystem = "IMPERIAL" from rfl]
  rw [if_pos (by decide)]

/-- Rescaling of the attached approximate distance by `KM_TO_MILES`:
relates the store annotations produced under the two unit systems. -/
def rescaleStore (s : Store) : Store :=
  { s with computedDistance := s.computedDistance.map (· * KM_TO_MILES) }

/-- Under exact arithmetic the metric computed distance is the imperial one
times `KM_TO_MILES` (both branches of `getComputedDistance`). -/
theorem getComputedDistance_metric_eq_imperial_mul (m : JsMath) (base : Props)
    (p1 p2 : Location) :
    getComputedDistance m { base with mapUnitSystem := "METRIC" } p1 p2 =
    getComputedDistance m { base with mapUnitSystem := "IMPERIAL" } p1 p2 * KM_TO_MILES := by
  by_cases heq : p1.lat = p2.lat ∧ p1.lng = p2.lng
  · simp [getComputedDistance, heq]
  · simp only [getComputedDistance, getUnitSystem_set_metric, getUnitSystem_set_imperial,
      if_neg heq]
    rw [if_pos (by decide), if_neg (by decide)]

/-- The metric annotation is the imperial annotation followed by the
rescaling. -/
theorem annotateStore_set_metric (m : JsMath) (base : Props) (coords : Location)
    (s : Store) :
    annotateStore m { base with mapUnitSystem := "METRIC" } coords s =
    rescaleStore (annotateStore m { base with mapUnitSystem := "IMPERIAL" } coords s) := by
  unfold annotateStore rescaleStore
  simp [getComputedDistance_metric_eq_imperial_mul]

/-- The map `computedDistanceVal` commutes with the rescaling. -/
theorem computedDistanceVal_rescaleStore (s : Store) :
    computedDistanceVal (rescaleStore s) = computedDistanceVal s * KM_TO_MILES := by
  unfold computedDistanceVal rescaleStore
  cases s.computedDistance <;> simp

/-- The function `orderedInsert` commutes with mapping a function that transports the
order relation. -/
theorem orderedInsert_map_of_iff {α β : Type} (f : α → β) (r : β → β → Prop)
    (q : α → α → Prop) [DecidableRel r] [DecidableRel q]
    (hr : ∀ a b, r (f a) (f b) ↔ q a b) (a : α) (l : List α) :
    (l.map f).orderedInsert r (f a) = (l.orderedInsert q a).map f := by
  induction l with
  | nil => rfl
  | cons b l ih =>
    simp only [List.map_cons, List.orderedInsert]
    by_cases h : q a b
    · rw [if_pos h, if_pos ((hr a b).mpr h), List.map_cons, List.map_cons]
    · rw [if_neg h, if_neg (fun hc => h ((hr a b).mp hc)), List.map_cons, ih]

/-- The function `insertionSort` commutes with mapping a function that transports the
order relation. -/
theorem insertionSort_map_of_iff {α β : Type} (f : α → β) (r : β → β → Prop)
    (q : α → α → Prop) [DecidableRel r] [DecidableRel q]
    (hr : ∀ a b, r (f a) (f b) ↔ q a b) (l : List α) :
    (l.map f).insertionSort r = (l.insertionSort q).map f := by
  induction l with
  | nil => rfl
  | cons a l ih =>
    simp only [List.map_cons, List.insertionSort]
    rw [ih, orderedInsert_map_of_iff f r q hr a (l.insertionSort q)]

/-- Claim C10: over exact arithmetic, the list of stores surviving the
radius filter of the approximate phase (ids, in published order) is the
same whether the component is configured with the metric or the imperial
unit system: the radius conversion in `getSearchRadius` exactly offsets the
`KM_TO_MILES` factor applied by `getComputedDistance`. -/
theorem radius_filter_unit_system_independent (m : JsMath) (base : Props)
    (coords : Location) (st : SLState) :
    (updateStores m { base with mapUnitSystem := "METRIC" } coords st).stateStores.map
      Store.id =
    (updateStores m { base with mapUnitSystem := "IMPERIAL" } coords st).stateStores.map
      Store.id := by
  have hmap : st.propsStores.map
        (annotateStore m { base with mapUnitSystem := "METRIC" } coords) =
      (st.propsStores.map
        (annotateStore m { base with mapUnitSystem := "IMPERIAL" } coords)).map
          rescaleStore := by
    rw [List.map_map]
    exact List.map_congr_left fun s _ => annotateStore_set_metric m base coords s
  have hradM : getSearchRadius { base with mapUnitSystem := "METRIC" } = base.searchRadius := by
    unfold getSearchRadius
    rw [getUnitSystem_set_metric, if_neg (by decide)]
  have hradI : getSearchRadius { base with mapUnitSystem := "IMPERIAL" } =
      base.searchRadius / KM_TO_MILES := by
    unfold getSearchRadius
    rw [getUnitSystem_set_imperial, if_pos rfl]
  have hle : ∀ a b : Store,
      (computedDistanceVal (rescaleStore a) ≤ computedDistanceVal (rescaleStore b)) ↔
      (computedDistanceVal a ≤ computedDistanceVal b) := by
    intro a b
    rw [computedDistanceVal_rescaleStore, computedDistanceVal_rescaleStore]
    exact mul_le_mul_right KM_TO_MILES_pos
  have hpred : (fun s => decide (computedDistanceVal s <
        getSearchRadius { base with mapUnitSystem := "METRIC" })) ∘ rescaleStore =
      fun s => decide (computedDistanceVal s <
        getSearchRadius { base with mapUnitSystem := "IMPERIAL" }) := by
    funext s
    simp only [Function.comp_apply]
    apply decide_eq_decide.mpr
    rw [computedDistanceVal_rescaleStore, hradM, hradI]
    exact (lt_div_iff₀ KM_TO_MILES_pos).symm
  have hid : Store.id ∘ rescaleStore = Store.id := funext fun s => rfl
  simp only [updateStores]
  by_cases hord : base.orderByStoreDistance = true
  · rw [if_pos hord, if_pos hord, hmap, insertionSort_map_of_iff rescaleStore _ _ hle,
      List.filter_map, hpred, List.map_map, hid]
  · rw [if_neg hord, if_neg hord, hmap, List.filter_map, hpred, List.map_map, hid]
